import Mathlib

/-!
Verification of the Research_AI repository: a shallow embedding of the
phase-record schemas (`src/mastra/agents/phase-agents.ts`), the linear
research-execution workflow (`src/mastra/workflows/research-execution-workflow.ts`),
the two Serper search tools (`src/mastra/tools/search-tools.ts`) and the
run-research-execution-workflow tool (`src/mastra/agents/research-agent.ts`),
together with theorems settling the specification's claims about them.
-/

/-! ## Zod schema embedding

The phase output schemas in `phase-agents.ts` use a small fragment of zod:
string / boolean fields (possibly `.optional()`), string literals, unions of
number literals, string enums, bounded numbers (`.min`/`.max`), flat nested
objects, and arrays of flat objects with length bounds.  We embed values as
JSON-like trees over rationals (zod's `z.number()` accepts non-integers) and
each schema as an association list from field name to field type. -/

/-- Field types that occur inside the nested objects of the phase schemas
(`MethodSchema`, `handoffPackage`, `executorFeedback`): `z.string()`,
`z.string().optional()` and `z.boolean().optional()`. -/
inductive SimpleField where
  | str
  | strOpt
  | boolOpt
deriving DecidableEq

/-- Primitive JSON values, as they occur inside nested objects. -/
inductive SimpleValue where
  | str (s : String)
  | num (q : ℚ)
  | bool (b : Bool)
deriving DecidableEq

/-- The zod field constructors used by the top-level phase schemas. -/
inductive ZField where
  | litStr (s : String)
  | str
  | strOpt
  | bool
  | boolOpt
  | numUnionLits (ns : List ℚ)
  | enumS (ss : List String)
  | numMinMax (lo hi : ℚ)
  | numMax (hi : ℚ)
  | objF (fs : List (String × SimpleField))
  | arrObjMinMax (fs : List (String × SimpleField)) (lo hi : Nat)
deriving DecidableEq

/-- A zod object schema: ordered association list of field name and type. -/
abbrev Schema := List (String × ZField)

/-- A JSON value at the nesting depth the phase records use: primitives,
one level of object, and arrays of objects. -/
inductive JSValue where
  | str (s : String)
  | num (q : ℚ)
  | bool (b : Bool)
  | obj (kvs : List (String × SimpleValue))
  | arrObj (xs : List (List (String × SimpleValue)))
deriving DecidableEq

/-- A record value submitted to a phase schema. -/
abbrev RecordV := List (String × JSValue)

/-- Does an (optionally absent) primitive value conform to a simple field type? -/
def checkSimpleField : SimpleField → Option SimpleValue → Bool
  | .str, some (.str _) => true
  | .str, _ => false
  | .strOpt, none => true
  | .strOpt, some (.str _) => true
  | .strOpt, _ => false
  | .boolOpt, none => true
  | .boolOpt, some (.bool _) => true
  | .boolOpt, _ => false

/-- Conformance of a flat object to a list of simple fields.  zod objects are
non-strict: unknown keys are ignored, only the declared keys are checked. -/
def checkSimpleObj (fs : List (String × SimpleField)) (kvs : List (String × SimpleValue)) : Bool :=
  fs.all fun kt => checkSimpleField kt.2 (List.lookup kt.1 kvs)

/-- Does an (optionally absent) value conform to a zod field type? -/
def checkZField : ZField → Option JSValue → Bool
  | .litStr s, some (.str t) => s == t
  | .str, some (.str _) => true
  | .strOpt, none => true
  | .strOpt, some (.str _) => true
  | .bool, some (.bool _) => true
  | .boolOpt, none => true
  | .boolOpt, some (.bool _) => true
  | .numUnionLits ns, some (.num q) => decide (q ∈ ns)
  | .enumS ss, some (.str t) => decide (t ∈ ss)
  | .numMinMax lo hi, some (.num q) => decide (lo ≤ q) && decide (q ≤ hi)
  | .numMax hi, some (.num q) => decide (q ≤ hi)
  | .objF fs, some (.obj kvs) => checkSimpleObj fs kvs
  | .arrObjMinMax fs lo hi, some (.arrObj xs) =>
      decide (lo ≤ xs.length) && decide (xs.length ≤ hi) && xs.all fun kvs => checkSimpleObj fs kvs
  | _, _ => false

/-- A record is valid under a schema when every declared field conforms
(required fields present, optional fields absent or conforming); extra keys
are ignored, as in zod's default non-strict object mode. -/
def validates (s : Schema) (r : RecordV) : Bool :=
  s.all fun kt => checkZField kt.2 (List.lookup kt.1 r)

/-- zod's `.extend`: fields of the base schema, with fields named in the
extension overriding in place, and fresh extension fields appended. -/
def extendSchema (base add : Schema) : Schema :=
  (base.map fun kt =>
    match List.lookup kt.1 add with
    | some t => (kt.1, t)
    | none => kt) ++ add.filter fun kt => (List.lookup kt.1 base).isNone

/-! ## The phase schemas, translated field by field from `phase-agents.ts` -/

/-- Phase A output schema (`PhaseAOutputSchema`). -/
def PhaseAOutputSchema : Schema :=
  [ ("phase", .litStr "A"),
    ("accepted", .bool),
    ("businessGoal", .str),
    ("timeHorizonDays", .numUnionLits [30, 60, 90]),
    ("researchType", .enumS
      [ "Commercial Opportunity Research",
        "Product Market Fit Validation",
        "Technology-to-Business Research",
        "Investment Opportunity Research",
        "Internal Problem-Solving Research" ]),
    ("rejectedReason", .strOpt),
    ("mode", .enumS ["commercial", "product"]) ]

/-- Phase B output schema: `PhaseAOutputSchema.extend {...}`. -/
def PhaseBOutputSchema : Schema :=
  extendSchema PhaseAOutputSchema
    [ ("phase", .litStr "B"),
      ("researchTypeValidated", .bool),
      ("validationNotes", .strOpt) ]

/-- Phase C output schema: `PhaseBOutputSchema.extend {...}`. -/
def PhaseCOutputSchema : Schema :=
  extendSchema PhaseBOutputSchema
    [ ("phase", .litStr "C"),
      ("successCriteria", .str),
      ("failureCriteria", .str),
      ("timeLimitDays", .numMinMax 1 2),
      ("costLimitUsd", .numMax 500),
      ("cycleRiskOrNoGo", .boolOpt) ]

/-- The per-method object schema of Phase D (`MethodSchema`). -/
def MethodSchema : List (String × SimpleField) :=
  [ ("hypothesis", .str),
    ("expectedBusinessEffect", .str),
    ("failureCondition", .str),
    ("proofThreshold", .str) ]

/-- Phase D output schema: `PhaseCOutputSchema.extend {...}`. -/
def PhaseDOutputSchema : Schema :=
  extendSchema PhaseCOutputSchema
    [ ("phase", .litStr "D"),
      ("methods", .arrObjMinMax MethodSchema 1 3),
      ("methodsJustification", .str) ]

/-- Phase E output schema: `PhaseDOutputSchema.extend {...}`. -/
def PhaseEOutputSchema : Schema :=
  extendSchema PhaseDOutputSchema
    [ ("phase", .litStr "E"),
      ("handoffPackage", .objF
        [ ("researchGoal", .str),
          ("researchType", .str),
          ("icpAndBuyerRole", .str),
          ("initialPaidEngagement", .str),
          ("methodsWithHypothesesAndProof", .str),
          ("validationAlgorithm", .str),
          ("businessAndMoneyLogic", .str),
          ("cycleRiskFlag", .boolOpt),
          ("risksAndLimitations", .str),
          ("sourcesOrLinks", .str) ]),
      ("handoffWithinPageLimit", .bool) ]

/-- Phase F output schema: `PhaseEOutputSchema.extend {...}`. -/
def PhaseFOutputSchema : Schema :=
  extendSchema PhaseEOutputSchema
    [ ("phase", .litStr "F"),
      ("status", .enumS ["SUCCESS", "PARTIAL_SUCCESS", "FAIL"]),
      ("executorFeedback", .objF
        [ ("primaryReason", .str),
          ("whatWouldHaveChangedResult", .strOpt) ]) ]

/-- The six phase output schemas, in pipeline order. -/
def phaseSchemas : List Schema :=
  [ PhaseAOutputSchema, PhaseBOutputSchema, PhaseCOutputSchema,
    PhaseDOutputSchema, PhaseEOutputSchema, PhaseFOutputSchema ]

/-! ## Concrete phase records used as test vectors -/

/-- A concrete record valid under the Phase A schema. -/
def recA : RecordV :=
  [ ("phase", .str "A"),
    ("accepted", .bool true),
    ("businessGoal", .str "Reach $20k MRR from the SMB segment"),
    ("timeHorizonDays", .num 60),
    ("researchType", .str "Commercial Opportunity Research"),
    ("mode", .str "commercial") ]

/-- A concrete record valid under the Phase B schema: `recA`'s fields with the
`phase` discriminator re-specified to `"B"` plus the Phase B additions. -/
def recB : RecordV :=
  [ ("phase", .str "B"),
    ("accepted", .bool true),
    ("businessGoal", .str "Reach $20k MRR from the SMB segment"),
    ("timeHorizonDays", .num 60),
    ("researchType", .str "Commercial Opportunity Research"),
    ("mode", .str "commercial"),
    ("researchTypeValidated", .bool true) ]

/-- The rational 1.5, given in normalized `num/den` form so that schema
validation on it is kernel-computable. -/
def ratOneAndHalf : ℚ := ⟨3, 2, by decide, by decide⟩

/-- The rational 2.5, in normalized form. -/
def ratTwoAndHalf : ℚ := ⟨5, 2, by decide, by decide⟩

theorem ratOneAndHalf_eq : ratOneAndHalf = 3 / 2 := by
  rw [ratOneAndHalf, Rat.mk'_eq_divInt, Rat.divInt_eq_div]
  norm_num

theorem ratTwoAndHalf_eq : ratTwoAndHalf = 5 / 2 := by
  rw [ratTwoAndHalf, Rat.mk'_eq_divInt, Rat.divInt_eq_div]
  norm_num

/-- The Phase A and B fields other than the `phase` discriminator, shared by
the Phase C and later test records. -/
def recSharedAB : RecordV :=
  [ ("accepted", .bool true),
    ("businessGoal", .str "Reach $20k MRR from the SMB segment"),
    ("timeHorizonDays", .num 60),
    ("researchType", .str "Commercial Opportunity Research"),
    ("mode", .str "commercial"),
    ("researchTypeValidated", .bool true) ]

/-- The Phase C criteria fields shared by the test records below. -/
def recCCriteria : RecordV :=
  [ ("successCriteria", .str "1 paid signal at $10k+"),
    ("failureCriteria", .str "No willingness to pay") ]

/-- Phase C record with the non-integer boundary value `timeLimitDays = 1.5`
and `costLimitUsd = 0`. -/
def recC15 : RecordV :=
  ("phase", JSValue.str "C") :: recSharedAB ++ recCCriteria ++
    [("timeLimitDays", .num ratOneAndHalf), ("costLimitUsd", .num 0)]

/-- Phase C record with `timeLimitDays = 1` and a negative `costLimitUsd`. -/
def recCneg : RecordV :=
  ("phase", JSValue.str "C") :: recSharedAB ++ recCCriteria ++
    [("timeLimitDays", .num 1), ("costLimitUsd", .num (-50))]

/-- Phase C record with `timeLimitDays = 2.5`, above the schema's maximum. -/
def recCbad1 : RecordV :=
  ("phase", JSValue.str "C") :: recSharedAB ++ recCCriteria ++
    [("timeLimitDays", .num ratTwoAndHalf), ("costLimitUsd", .num 0)]

/-- Phase C record with `costLimitUsd = 501`, above the schema's maximum. -/
def recCbad2 : RecordV :=
  ("phase", JSValue.str "C") :: recSharedAB ++ recCCriteria ++
    [("timeLimitDays", .num 1), ("costLimitUsd", .num 501)]

/-- The Phase D additions (other than the discriminator) used by the Phase D
and later test records; boundary values `timeLimitDays = 1.5` and
`costLimitUsd = -50` are carried forward. -/
def recDFields : RecordV :=
  recCCriteria ++
  [ ("timeLimitDays", .num ratOneAndHalf),
    ("costLimitUsd", .num (-50)),
    ("methods", .arrObj
      [[ ("hypothesis", .str "SMBs will pay for this"),
         ("expectedBusinessEffect", .str "One $10k deal"),
         ("failureCondition", .str "No paid signal in 2 days"),
         ("proofThreshold", .str "1 paid signal") ]]),
    ("methodsJustification", .str "Fastest path to a paid signal") ]

/-- Phase D record carrying the boundary values forward. -/
def recD : RecordV :=
  ("phase", JSValue.str "D") :: recSharedAB ++ recDFields

/-- The Phase E additions (other than the discriminator). -/
def recEFields : RecordV :=
  recDFields ++
  [ ("handoffPackage", .obj
      [ ("researchGoal", .str "Validate demand"),
        ("researchType", .str "Commercial Opportunity Research"),
        ("icpAndBuyerRole", .str "SMB founder"),
        ("initialPaidEngagement", .str "$10k pilot"),
        ("methodsWithHypothesesAndProof", .str "1 method, 1 paid signal"),
        ("validationAlgorithm", .str "Call 10 prospects, close 1"),
        ("businessAndMoneyLogic", .str "$20k+/month target"),
        ("risksAndLimitations", .str "Small sample"),
        ("sourcesOrLinks", .str "none") ]),
    ("handoffWithinPageLimit", .bool true) ]

/-- Phase E record (boundary values carried forward). -/
def recE : RecordV :=
  ("phase", JSValue.str "E") :: recSharedAB ++ recEFields

/-- Phase F record (boundary values carried forward). -/
def recF : RecordV :=
  ("phase", JSValue.str "F") :: recSharedAB ++ recEFields ++
  [ ("status", .str "SUCCESS"),
    ("executorFeedback", .obj [("primaryReason", .str "Paid signal confirmed")]) ]

/-! ## Workflow assembly (`research-execution-workflow.ts`)

`createResearchExecutionWorkflow` builds the workflow by chaining `.then`
calls on thirteen steps: seven steps created from agents and six bridge
steps, then `.commit()`.  We model a step by its id and whether it was
created from an agent or as an inline bridge, and `.then` as appending to
the step sequence. -/

/-- Whether a workflow step is a model-backed agent step or a bridge step. -/
inductive StepKind where
  | agentStep
  | bridgeStep
deriving DecidableEq

/-- A workflow step: its id and kind. -/
structure WStep where
  id : String
  kind : StepKind
deriving DecidableEq

/-- The step `createStep(agents.intakeAgent, ...)`. -/
def stepIntake : WStep := ⟨"intake-agent", .agentStep⟩

/-- The step `createStep({ id: 'bridge-intake-to-a', ... })`. -/
def bridgeIntakeToA : WStep := ⟨"bridge-intake-to-a", .bridgeStep⟩

/-- The step `createStep(agents.phaseAAgent, ...)`. -/
def stepPhaseA : WStep := ⟨"phase-a-agent", .agentStep⟩

/-- The step `createStep({ id: 'bridge-a-to-b', ... })`. -/
def bridgeAtoB : WStep := ⟨"bridge-a-to-b", .bridgeStep⟩

/-- The step `createStep(agents.phaseBAgent, ...)`. -/
def stepPhaseB : WStep := ⟨"phase-b-agent", .agentStep⟩

/-- The step `createStep({ id: 'bridge-b-to-c', ... })`. -/
def bridgeBtoC : WStep := ⟨"bridge-b-to-c", .bridgeStep⟩

/-- The step `createStep(agents.phaseCAgent, ...)`. -/
def stepPhaseC : WStep := ⟨"phase-c-agent", .agentStep⟩

/-- The step `createStep({ id: 'bridge-c-to-d', ... })`. -/
def bridgeCtoD : WStep := ⟨"bridge-c-to-d", .bridgeStep⟩

/-- The step `createStep(agents.phaseDAgent, ...)`. -/
def stepPhaseD : WStep := ⟨"phase-d-agent", .agentStep⟩

/-- The step `createStep({ id: 'bridge-d-to-e', ... })`. -/
def bridgeDtoE : WStep := ⟨"bridge-d-to-e", .bridgeStep⟩

/-- The step `createStep(agents.phaseEAgent, ...)`. -/
def stepPhaseE : WStep := ⟨"phase-e-agent", .agentStep⟩

/-- The step `createStep({ id: 'bridge-e-to-f', ... })`. -/
def bridgeEtoF : WStep := ⟨"bridge-e-to-f", .bridgeStep⟩

/-- The step `createStep(agents.phaseFAgent, ...)`. -/
def stepPhaseF : WStep := ⟨"phase-f-agent", .agentStep⟩

/-- The chaining call `.then(step)`: appends the step to the linear chain.  The workflow
declaration uses only `.then`; there is no branch, loop or parallel
combinator in `createResearchExecutionWorkflow`. -/
def wfThen (steps : List WStep) (s : WStep) : List WStep := steps ++ [s]

/-- The step sequence committed by `createResearchExecutionWorkflow`:
`createWorkflow({...}).then(stepIntake).then(bridgeIntakeToA)...(stepPhaseF).commit()`. -/
def researchExecutionSteps : List WStep :=
  wfThen (wfThen (wfThen (wfThen (wfThen (wfThen (wfThen (wfThen (wfThen (wfThen
    (wfThen (wfThen (wfThen [] stepIntake) bridgeIntakeToA) stepPhaseA) bridgeAtoB)
    stepPhaseB) bridgeBtoC) stepPhaseC) bridgeCtoD) stepPhaseD) bridgeDtoE)
    stepPhaseE) bridgeEtoF) stepPhaseF

/-! ## Search tools (`search-tools.ts`)

Both tools POST to the Serper endpoint; we abstract the transport as a
`FetchOutcome` per request (success with a parsed `organic` array, a non-ok
HTTP response, or a thrown exception) and embed the `execute` functions as
pure functions of the environment, the parsed input and the transport. -/

/-- One entry of the Serper response's `organic` array; every field is
optional in the response (`o.title ?? ''` etc. in the source). -/
structure OrganicItem where
  title : Option String
  link : Option String
  snippet : Option String
deriving DecidableEq

/-- A (title, link, snippet) result triple as declared in the tools'
output schemas. -/
structure SearchResultItem where
  title : String
  link : String
  snippet : String
deriving DecidableEq

/-- The mapping `{ title: o.title ?? '', link: o.link ?? '', snippet: o.snippet ?? '' }`. -/
def toItem (o : OrganicItem) : SearchResultItem :=
  ⟨o.title.getD "", o.link.getD "", o.snippet.getD ""⟩

/-- Outcome of one `fetch` of the search endpoint: an ok response with its
parsed `organic` array (`data.organic ?? []` folded in), a non-ok response
with its body text and status text, or a thrown exception with its message. -/
inductive FetchOutcome where
  | ok (organic : List OrganicItem)
  | httpError (body : String) (statusText : String)
  | exn (message : String)
deriving DecidableEq

/-- JavaScript `String.prototype.trim`: strips leading and trailing
whitespace. -/
def jsTrim (s : String) : String :=
  ⟨((s.data.dropWhile Char.isWhitespace).reverse.dropWhile Char.isWhitespace).reverse⟩

/-- The helper `getSerperApiKey`: reads `process.env.SERPER_API_KEY`, trims it, and
treats an absent or whitespace-only value as missing
(`process.env.SERPER_API_KEY?.trim() || undefined` — the empty string is
falsy, so it collapses to `undefined`). -/
def getSerperApiKey (env : Option String) : Option String :=
  match env with
  | none => none
  | some s => if jsTrim s = "" then none else some (jsTrim s)

/-- Output record of the `internet-search` tool. -/
structure InternetSearchOutput where
  success : Bool
  query : String
  results : List SearchResultItem
  error : Option String
deriving DecidableEq

/-- Input validation of `internet-search`: `query` is `z.string().min(1).max(300)`
and `numResults` is `z.number().min(1).max(10).optional()`. -/
def internetSearch_inputValid (query : String) (numResults : Option ℚ) : Bool :=
  (decide (1 ≤ query.length) && decide (query.length ≤ 300)) &&
    match numResults with
    | none => true
    | some n => decide (1 ≤ n) && decide (n ≤ 10)

/-- zod's `.default(5)` on `numResults`, applied during input parsing. -/
def internetSearch_applyDefault (numResults : Option ℚ) : ℚ :=
  numResults.getD 5

/-- JS `Array.prototype.slice(0, n)` for a numeric limit `n`: the limit is
truncated toward zero.  Negative limits (counted from the end in JS) are
unreachable here because the input schema guarantees `1 ≤ n`. -/
def jsSliceTake (n : ℚ) (xs : List α) : List α :=
  xs.take (Int.floor n).toNat

/-- The `execute` body of `internetSearchTool`, as a pure function of the
environment variable, the parsed input, and the transport outcome. -/
def internetSearch_execute (env : Option String) (query : String) (numResults : ℚ)
    (fetch : FetchOutcome) : InternetSearchOutput :=
  match getSerperApiKey env with
  | none =>
      ⟨false, query, [], some "SERPER_API_KEY not set. Add it to .env for live web search."⟩
  | some _ =>
      match fetch with
      | .httpError body statusText =>
          ⟨false, query, [], some (if body = "" then statusText else body)⟩
      | .exn message => ⟨false, query, [], some message⟩
      | .ok organic => ⟨true, query, (jsSliceTake numResults organic).map toItem, none⟩

/-- One per-query finding of the `deep-research` tool. -/
structure Finding where
  query : String
  results : List SearchResultItem
deriving DecidableEq

/-- Output record of the `deep-research` tool. -/
structure DeepResearchOutput where
  success : Bool
  reasoning : String
  findings : List Finding
  synthesisHint : String
  error : Option String
deriving DecidableEq

/-- Input validation of `deep-research`: `reasoning` is `z.string()` and
`queries` is `z.array(z.string().min(1).max(200)).min(1).max(5)`. -/
def deepResearch_inputValid (_reasoning : String) (queries : List String) : Bool :=
  (decide (1 ≤ queries.length) && decide (queries.length ≤ 5)) &&
    queries.all fun q => decide (1 ≤ q.length) && decide (q.length ≤ 200)

/-- The constant `numPerQuery = 3`. -/
def deepResearch_numPerQuery : Nat := 3

/-- One iteration of the `for (const query of queries)` loop: an ok response
contributes `organic.slice(0, numPerQuery)` mapped to triples; a non-ok
response contributes `{ organic: [] }` hence an empty list; a thrown
exception is caught and contributes `{ query, results: [] }`. -/
def deepResearch_runQuery (fetch : String → FetchOutcome) (q : String) : Finding :=
  match fetch q with
  | .ok organic => ⟨q, (organic.take deepResearch_numPerQuery).map toItem⟩
  | .httpError _ _ => ⟨q, []⟩
  | .exn _ => ⟨q, []⟩

/-- The `execute` body of `deepResearchTool`, as a pure function of the
environment variable, the parsed input, and the per-query transport. -/
def deepResearch_execute (env : Option String) (reasoning : String)
    (queries : List String) (fetch : String → FetchOutcome) : DeepResearchOutput :=
  match getSerperApiKey env with
  | none =>
      ⟨false, reasoning, [],
        "Add SERPER_API_KEY to .env for live deep research.",
        some "SERPER_API_KEY not set."⟩
  | some _ =>
      ⟨true, reasoning, queries.map (deepResearch_runQuery fetch),
        "Synthesize the above findings with respect to: " ++ reasoning ++
          ". Cite sources; note conflicts or gaps.",
        none⟩

/-! ## The run-research-execution-workflow tool (`research-agent.ts`)

`createRunResearchExecutionWorkflowTool`'s `execute` resolves the workflow,
starts a run, awaits `run.start(...)` unconditionally, and derives its reply
from the run's terminal outcome alone.  We embed it as a pure function of
workflow availability, the prompt, and the awaited outcome — the function has
no time input because the source has no timer, deadline or cancellation. -/

/-- Terminal outcome of `run.start(...)`: its status string and, when
present, its result and its stringified error. -/
structure WorkflowRunOutcome where
  status : String
  result : Option String
  error : Option String

/-- The record returned by the tool's `execute`. -/
structure RunToolResult where
  run : Bool
  status : Option String
  result : Option String
  error : Option String
  message : String

/-- The `execute` body of the `run-research-execution-workflow` tool. -/
def runResearchExecutionWorkflowTool_execute (workflowAvailable : Bool)
    (_prompt : String) (outcome : WorkflowRunOutcome) : RunToolResult :=
  if workflowAvailable then
    let status := outcome.status
    let errorStr : Option String := if status = "failed" then outcome.error else none
    let result : Option String := if status = "success" then outcome.result else none
    let message :=
      if status = "success" then
        "Pipeline completed successfully (Phases A→F). Final result is below; tell the user in this chat."
      else
        match errorStr with
        | some e => "Pipeline failed: " ++ e ++ ". Tell the user in this chat."
        | none => "Pipeline finished with status: " ++ status ++ ". Tell the user in this chat."
    ⟨true, some status, result, errorStr, message⟩
  else
    ⟨false, none, none, some "Workflow not available in this context",
      "The pipeline could not be started (workflow not available). Please try again or use Research AI."⟩

/-! ## Helper predicates and lemmas -/

/-- Every field of `prev`, except the `phase` discriminator, appears in
`next` under the same name with the identical field type. -/
def preservedExceptPhase (prev next : Schema) : Bool :=
  prev.all fun kt => kt.1 == "phase" || decide (List.lookup kt.1 next = some kt.2)

/-- Schema `next` declares at least one field name absent from `prev`. -/
def hasNewField (prev next : Schema) : Bool :=
  next.any fun kt => (List.lookup kt.1 prev).isNone

/-- The `timeHorizonDays` field of a record is present and is exactly one of
the numbers 30, 60 or 90. -/
def timeHorizonOk (r : RecordV) : Prop :=
  ∃ q : ℚ, List.lookup "timeHorizonDays" r = some (.num q) ∧ (q = 30 ∨ q = 60 ∨ q = 90)

theorem validates_field {s : Schema} {r : RecordV} (h : validates s r = true)
    {k : String} {t : ZField} (hmem : (k, t) ∈ s) :
    checkZField t (List.lookup k r) = true := by
  have hall := List.all_eq_true.mp h (k, t) hmem
  simpa using hall

theorem timeHorizon_of_validates {s : Schema} {r : RecordV}
    (hmem : ("timeHorizonDays", ZField.numUnionLits [30, 60, 90]) ∈ s)
    (h : validates s r = true) : timeHorizonOk r := by
  have hc := validates_field h hmem
  cases hl : List.lookup "timeHorizonDays" r with
  | none => rw [hl] at hc; simp [checkZField] at hc
  | some v =>
      rw [hl] at hc
      cases v with
      | num q =>
          refine ⟨q, hl, ?_⟩
          have hq : q ∈ ([30, 60, 90] : List ℚ) := by simpa [checkZField] using hc
          simpa using hq
      | str s => simp [checkZField] at hc
      | bool b => simp [checkZField] at hc
      | obj kvs => simp [checkZField] at hc
      | arrObj xs => simp [checkZField] at hc

theorem deepResearch_runQuery_query (fetch : String → FetchOutcome) (q : String) :
    (deepResearch_runQuery fetch q).query = q := by
  unfold deepResearch_runQuery
  cases fetch q <;> rfl

theorem deepResearch_runQuery_results_le (fetch : String → FetchOutcome) (q : String) :
    (deepResearch_runQuery fetch q).results.length ≤ 3 := by
  unfold deepResearch_runQuery
  cases h : fetch q with
  | ok organic =>
      simp only [List.length_map]
      calc (organic.take deepResearch_numPerQuery).length
          ≤ deepResearch_numPerQuery := (List.length_take _ _).le.trans (Nat.min_le_left _ _)
        _ = 3 := rfl
  | httpError body statusText => simp
  | exn message => simp

/-! ## Claim theorems -/

/-- C1, counterexample: the cumulative-record claim fails as stated, because
every phase schema re-specifies the `phase` discriminator introduced by
Phase A.  The concrete record `recB` is valid under the Phase B schema, yet
it does not contain Phase A's `phase` field unchanged (it is not valid under
the Phase A schema, whose `phase` field demands the literal `"A"`), and at
the schema level Phase B re-specifies `phase` from `z.literal('A')` to
`z.literal('B')`. -/
theorem c1_phase_discriminator_respecified :
    validates PhaseBOutputSchema recB = true ∧
    validates PhaseAOutputSchema recB = false ∧
    List.lookup "phase" PhaseBOutputSchema = some (ZField.litStr "B") ∧
    List.lookup "phase" PhaseAOutputSchema = some (ZField.litStr "A") := by
  decide

/-- C1, amended: for every phase N in B..F, phase N's output schema contains
every field of phase N−1's schema under the same name with the identical
specification, except the `phase` discriminator, which each phase
re-specifies from the previous phase's literal to its own; each phase adds
at least one field new to it.  No other field is deleted or re-specified. -/
theorem c1_amended_cumulative_extension_except_discriminator :
    (preservedExceptPhase PhaseAOutputSchema PhaseBOutputSchema = true ∧
      hasNewField PhaseAOutputSchema PhaseBOutputSchema = true ∧
      List.lookup "phase" PhaseBOutputSchema = some (ZField.litStr "B")) ∧
    (preservedExceptPhase PhaseBOutputSchema PhaseCOutputSchema = true ∧
      hasNewField PhaseBOutputSchema PhaseCOutputSchema = true ∧
      List.lookup "phase" PhaseCOutputSchema = some (ZField.litStr "C")) ∧
    (preservedExceptPhase PhaseCOutputSchema PhaseDOutputSchema = true ∧
      hasNewField PhaseCOutputSchema PhaseDOutputSchema = true ∧
      List.lookup "phase" PhaseDOutputSchema = some (ZField.litStr "D")) ∧
    (preservedExceptPhase PhaseDOutputSchema PhaseEOutputSchema = true ∧
      hasNewField PhaseDOutputSchema PhaseEOutputSchema = true ∧
      List.lookup "phase" PhaseEOutputSchema = some (ZField.litStr "E")) ∧
    (preservedExceptPhase PhaseEOutputSchema PhaseFOutputSchema = true ∧
      hasNewField PhaseEOutputSchema PhaseFOutputSchema = true ∧
      List.lookup "phase" PhaseFOutputSchema = some (ZField.litStr "F")) := by
  decide

/-- C6: in every record valid under any of the six phase output schemas, the
`timeHorizonDays` field is present and is exactly 30, 60 or 90 — no other
number is accepted by any phase's output schema. -/
theorem c6_timeHorizonDays_always_30_60_90 :
    ∀ S ∈ phaseSchemas, ∀ r : RecordV, validates S r = true → timeHorizonOk r := by
  intro S hS r hval
  have hmem : ("timeHorizonDays", ZField.numUnionLits [30, 60, 90]) ∈ S := by
    simp only [phaseSchemas, List.mem_cons, List.not_mem_nil, or_false] at hS
    rcases hS with rfl | rfl | rfl | rfl | rfl | rfl <;> decide
  exact timeHorizon_of_validates hmem hval

/-- C6, witness: the Phase A schema is a phase schema, the concrete record
`recA` validates under it, and so its `timeHorizonDays` is 30, 60 or 90. -/
theorem c6_witness :
    PhaseAOutputSchema ∈ phaseSchemas ∧ validates PhaseAOutputSchema recA = true ∧
      timeHorizonOk recA :=
  ⟨by decide, by decide,
    c6_timeHorizonDays_always_30_60_90 PhaseAOutputSchema (by decide) recA (by decide)⟩

/-- C7: the committed workflow is the fixed linear chain
Intake → bridge → A → bridge → B → bridge → C → bridge → D → bridge → E →
bridge → F: exactly seven agent-backed steps and six bridge steps, each
occurring exactly once (all step ids distinct), in this fixed order; the
declaration consists solely of `.then` chaining, so the modelled step
sequence is a plain list with no branch, loop or parallel edge. -/
theorem c7_workflow_fixed_linear_chain :
    researchExecutionSteps =
      [ stepIntake, bridgeIntakeToA, stepPhaseA, bridgeAtoB, stepPhaseB, bridgeBtoC,
        stepPhaseC, bridgeCtoD, stepPhaseD, bridgeDtoE, stepPhaseE, bridgeEtoF,
        stepPhaseF ] ∧
    (researchExecutionSteps.countP fun s => decide (s.kind = StepKind.agentStep)) = 7 ∧
    (researchExecutionSteps.countP fun s => decide (s.kind = StepKind.bridgeStep)) = 6 ∧
    (researchExecutionSteps.map WStep.id).Nodup := by
  decide

/-- C10: the Phase C schema bounds `timeLimitDays` only to the rational
interval [1, 2] — the non-integer 1.5 is accepted — and bounds
`costLimitUsd` only from above at 500, accepting zero and negative values;
records carrying these boundary values validate under Phase C and under
every later phase schema, while 2.5 and 501 are rejected. -/
theorem c10_phaseC_numeric_bounds_boundary_values :
    validates PhaseCOutputSchema recC15 = true ∧
    validates PhaseCOutputSchema recCneg = true ∧
    validates PhaseDOutputSchema recD = true ∧
    validates PhaseEOutputSchema recE = true ∧
    validates PhaseFOutputSchema recF = true ∧
    validates PhaseCOutputSchema recCbad1 = false ∧
    validates PhaseCOutputSchema recCbad2 = false := by
  decide

/-- C2: the embedded `execute` of the `run-research-execution-workflow` tool
is a pure function of workflow availability and the awaited run outcome —
it has no wall-clock input, timer or cancellation path.  When the workflow
is available it always reports the run's own terminal status, and its reply
message is always one of exactly three templates (success, failed with
error, or a pass-through of the run's own status): no distinct timeout
status or fixed timeout message exists in the code. -/
theorem c2_run_tool_reports_only_run_outcome (prompt : String)
    (outcome : WorkflowRunOutcome) :
    (runResearchExecutionWorkflowTool_execute true prompt outcome).run = true ∧
    (runResearchExecutionWorkflowTool_execute true prompt outcome).status
      = some outcome.status ∧
    ((runResearchExecutionWorkflowTool_execute true prompt outcome).message =
        "Pipeline completed successfully (Phases A→F). Final result is below; tell the user in this chat."
      ∨ (∃ e, outcome.error = some e ∧
          (runResearchExecutionWorkflowTool_execute true prompt outcome).message =
            "Pipeline failed: " ++ e ++ ". Tell the user in this chat.")
      ∨ (runResearchExecutionWorkflowTool_execute true prompt outcome).message =
          "Pipeline finished with status: " ++ outcome.status ++ ". Tell the user in this chat.") := by
  refine ⟨rfl, rfl, ?_⟩
  by_cases hsucc : outcome.status = "success"
  · left
    simp [runResearchExecutionWorkflowTool_execute, hsucc]
  · by_cases hfail : outcome.status = "failed"
    · cases he : outcome.error with
      | none =>
          right; right
          simp [runResearchExecutionWorkflowTool_execute, hsucc, hfail, he]
      | some e =>
          right; left
          refine ⟨e, rfl, ?_⟩
          simp [runResearchExecutionWorkflowTool_execute, hsucc, hfail, he]
    · right; right
      simp [runResearchExecutionWorkflowTool_execute, hsucc, hfail]

/-- C3, counterexample: the deep-research tool's synthesis hint is not one
fixed string independent of the input: two calls differing only in the
`reasoning` input produce different `synthesisHint` values. -/
theorem c3_synthesisHint_depends_on_reasoning :
    (deepResearch_execute (some "key") "verify market size" ["q"]
        fun _ => FetchOutcome.ok []).synthesisHint ≠
    (deepResearch_execute (some "key") "verify pricing" ["q"]
        fun _ => FetchOutcome.ok []).synthesisHint := by
  decide

/-- C3, amended: with a credential configured, the deep-research tool's
output includes a synthesis-hint string produced by one fixed template with
the input `reasoning` interpolated; it is independent of the query list and
of the per-query responses, but varies with `reasoning` (and the
missing-credential branch uses a different fixed placeholder string). -/
theorem c3_amended_synthesisHint_fixed_template (env : Option String)
    (k reasoning : String) (queries : List String)
    (fetch : String → FetchOutcome) (henv : getSerperApiKey env = some k) :
    (deepResearch_execute env reasoning queries fetch).synthesisHint =
      "Synthesize the above findings with respect to: " ++ reasoning ++
        ". Cite sources; note conflicts or gaps." := by
  unfold deepResearch_execute
  rw [henv]

/-- C3, amended, witness at a concrete input. -/
theorem c3_amended_witness :
    getSerperApiKey (some "key") = some "key" ∧
    (deepResearch_execute (some "key") "compare pricing" ["q"]
        fun _ => FetchOutcome.exn "down").synthesisHint =
      "Synthesize the above findings with respect to: " ++ "compare pricing" ++
        ". Cite sources; note conflicts or gaps." :=
  ⟨by decide,
    c3_amended_synthesisHint_fixed_template (some "key") "key" "compare pricing"
      ["q"] (fun _ => FetchOutcome.exn "down") (by decide)⟩

/-- C4: with a credential configured, a transport-layer failure of one of
three queries yields exactly three finding entries: the failing query's
entry has an empty result list, and the other two are populated from their
responses (`organic.slice(0, 3)` mapped to result triples). -/
theorem c4_one_transport_failure_is_local (env : Option String)
    (k reasoning q1 q2 q3 m : String) (o1 o3 : List OrganicItem)
    (fetch : String → FetchOutcome) (henv : getSerperApiKey env = some k)
    (h1 : fetch q1 = .ok o1) (h2 : fetch q2 = .exn m) (h3 : fetch q3 = .ok o3) :
    (deepResearch_execute env reasoning [q1, q2, q3] fetch).success = true ∧
    (deepResearch_execute env reasoning [q1, q2, q3] fetch).findings.length = 3 ∧
    (deepResearch_execute env reasoning [q1, q2, q3] fetch).findings =
      [ ⟨q1, (o1.take deepResearch_numPerQuery).map toItem⟩, ⟨q2, []⟩,
        ⟨q3, (o3.take deepResearch_numPerQuery).map toItem⟩ ] := by
  unfold deepResearch_execute
  rw [henv]
  refine ⟨rfl, rfl, ?_⟩
  simp [deepResearch_runQuery, h1, h2, h3]

/-- A concrete transport in which exactly the query `"b2b pricing"` fails
with a thrown network error and the other queries return one result each. -/
def c4FetchExample : String → FetchOutcome := fun q =>
  if q = "b2b pricing" then FetchOutcome.exn "network down"
  else if q = "market size" then FetchOutcome.ok [⟨some "t1", some "l1", some "s1"⟩]
  else FetchOutcome.ok [⟨some "t3", some "l3", some "s3"⟩]

/-- C4, witness: three concrete queries of which the middle one fails at the
transport layer give three finding entries, the middle one empty. -/
theorem c4_witness :
    (deepResearch_execute (some "key") "validate demand"
        ["market size", "b2b pricing", "competitors"] c4FetchExample).findings =
      [ ⟨"market size", [⟨"t1", "l1", "s1"⟩]⟩,
        ⟨"b2b pricing", []⟩,
        ⟨"competitors", [⟨"t3", "l3", "s3"⟩]⟩ ] ∧
    (deepResearch_execute (some "key") "validate demand"
        ["market size", "b2b pricing", "competitors"] c4FetchExample).findings.length
      = 3 := by
  have h := c4_one_transport_failure_is_local (some "key") "key" "validate demand"
    "market size" "b2b pricing" "competitors" "network down"
    [⟨some "t1", some "l1", some "s1"⟩] [⟨some "t3", some "l3", some "s3"⟩]
    c4FetchExample (by decide) (by decide) (by decide) (by decide)
  refine ⟨?_, h.2.1⟩
  rw [h.2.2]
  decide

/-- C5: for every query, result count and transport outcome, the
internet-search tool called with no credential configured returns
`success: false`, an empty result list and a non-empty error string; the
embedded `execute` is a total function, so no exception is raised. -/
theorem c5_no_credential_structured_unsuccessful (env : Option String)
    (query : String) (numResults : ℚ) (fetch : FetchOutcome)
    (henv : getSerperApiKey env = none) :
    (internetSearch_execute env query numResults fetch).success = false ∧
    (internetSearch_execute env query numResults fetch).results = [] ∧
    ∃ e, (internetSearch_execute env query numResults fetch).error = some e ∧ e ≠ "" := by
  unfold internetSearch_execute
  rw [henv]
  exact ⟨rfl, rfl, "SERPER_API_KEY not set. Add it to .env for live web search.",
    rfl, by decide⟩

/-- C5, witness at a concrete query with the credential unset. -/
theorem c5_witness :
    getSerperApiKey none = none ∧
    (internetSearch_execute none "b2b market size" 5 (.ok [])).success = false ∧
    (internetSearch_execute none "b2b market size" 5 (.ok [])).results = [] := by
  have h := c5_no_credential_structured_unsuccessful none "b2b market size" 5
    (.ok []) rfl
  exact ⟨rfl, h.1, h.2.1⟩

/-- C8: the internet-search input schema defaults the result count to 5 and
constrains it to 1–10, and on any successful call the returned list of
(title, link, snippet) triples is no longer than the requested count. -/
theorem c8_internetSearch_count_contract :
    internetSearch_applyDefault none = 5 ∧
    (∀ query n, internetSearch_inputValid query (some n) = true → 1 ≤ n ∧ n ≤ 10) ∧
    (∀ env query n fetch, 1 ≤ n →
      (internetSearch_execute env query n fetch).success = true →
      ((internetSearch_execute env query n fetch).results.length : ℚ) ≤ n) := by
  refine ⟨rfl, ?_, ?_⟩
  · intro query n h
    simp only [internetSearch_inputValid, Bool.and_eq_true, decide_eq_true_eq] at h
    exact ⟨h.2.1, h.2.2⟩
  · intro env query n fetch h1 hs
    cases henv : getSerperApiKey env with
    | none => simp [internetSearch_execute, henv] at hs
    | some k =>
      cases fetch with
      | httpError body statusText => simp [internetSearch_execute, henv] at hs
      | exn message => simp [internetSearch_execute, henv] at hs
      | ok organic =>
        have h0 : (0 : ℤ) ≤ Int.floor n := by
          refine Int.le_floor.mpr ?_
          push_cast
          linarith
        have hlen : (internetSearch_execute env query n (.ok organic)).results.length
            ≤ (Int.floor n).toNat := by
          simp only [internetSearch_execute, henv, jsSliceTake, List.length_map]
          exact (List.length_take _ _).le.trans (Nat.min_le_left _ _)
        calc ((internetSearch_execute env query n (.ok organic)).results.length : ℚ)
            ≤ (((Int.floor n).toNat : ℤ) : ℚ) := by exact_mod_cast hlen
          _ = ((Int.floor n : ℤ) : ℚ) := by rw [Int.toNat_of_nonneg h0]
          _ ≤ n := Int.floor_le n

/-- A concrete three-entry `organic` array for the C8 witness. -/
def c8Organic : List OrganicItem :=
  [⟨some "t1", some "l1", some "s1"⟩, ⟨some "t2", none, none⟩, ⟨some "t3", some "l3", none⟩]

/-- C8, witness: a valid request for 2 of 3 available results succeeds with
no more than 2 results. -/
theorem c8_witness :
    internetSearch_inputValid "ai tools" (some 2) = true ∧
    ((1 : ℚ) ≤ 2 ∧ (2 : ℚ) ≤ 10) ∧
    (internetSearch_execute (some "key") "ai tools" 2 (.ok c8Organic)).success = true ∧
    ((internetSearch_execute (some "key") "ai tools" 2 (.ok c8Organic)).results.length : ℚ)
      ≤ 2 := by
  refine ⟨by decide, c8_internetSearch_count_contract.2.1 "ai tools" 2 (by decide),
    by decide,
    c8_internetSearch_count_contract.2.2 (some "key") "ai tools" 2 (.ok c8Organic)
      (by norm_num) (by decide)⟩

/-- C9: with a credential configured, the deep-research output has exactly
one finding per input query, in input order, each with at most 3 results,
and the overall success flag is true for every transport behaviour — also
when every query fails. -/
theorem c9_deep_research_per_query_shape (env : Option String)
    (k reasoning : String) (queries : List String)
    (fetch : String → FetchOutcome) (henv : getSerperApiKey env = some k) :
    (deepResearch_execute env reasoning queries fetch).success = true ∧
    (deepResearch_execute env reasoning queries fetch).findings.map Finding.query
      = queries ∧
    (deepResearch_execute env reasoning queries fetch).findings.length
      = queries.length ∧
    ∀ f ∈ (deepResearch_execute env reasoning queries fetch).findings,
      f.results.length ≤ 3 := by
  unfold deepResearch_execute
  rw [henv]
  refine ⟨rfl, ?_, ?_, ?_⟩
  · simp only [List.map_map]
    have h : (Finding.query ∘ deepResearch_runQuery fetch) = id :=
      funext fun q => deepResearch_runQuery_query fetch q
    rw [h, List.map_id]
  · simp
  · intro f hf
    simp only [List.mem_map] at hf
    obtain ⟨q, hq, rfl⟩ := hf
    exact deepResearch_runQuery_results_le fetch q

/-- C9, witness: two queries that both fail at the transport layer still
give overall success and one finding per query. -/
theorem c9_witness :
    (deepResearch_execute (some "key") "angles" ["a", "b"]
        fun _ => FetchOutcome.exn "down").success = true ∧
    (deepResearch_execute (some "key") "angles" ["a", "b"]
        fun _ => FetchOutcome.exn "down").findings.length = 2 := by
  have h := c9_deep_research_per_query_shape (some "key") "key" "angles" ["a", "b"]
    (fun _ => FetchOutcome.exn "down") (by decide)
  exact ⟨h.1, h.2.2.1⟩
